import Mathlib

/-!
Verification development for `src/scripts/performance_monitor.py`.

The script keeps per-metric rolling histories in Python `deque(maxlen := history_size)`
buffers (default 100), samples a process once per tick (`collect_metrics`), checks each
sample against static thresholds (`_check_thresholds`), prints a status line
(`print_metrics`), and on shutdown persists a JSON summary (`save_metrics`) and prints
aggregate statistics (the `finally` block of `main`).

All float-valued metrics are embedded as rationals (ℚ): the script performs only sums,
divisions, maxima and order comparisons, whose real-number behaviour is captured exactly
by ℚ. Counts (threads, handles) are ℕ. I/O (psutil reads, console, JSON file) is
represented by explicit inputs (`SampleOutcome`, `LoopEvent`) and explicit result values
(`List OutputItem`, `SavedData`, `Except`).
-/

/-- Python `deque(maxlen := cap)` append: the new value goes to the right end and, when
the buffer already holds `cap` elements, the leftmost (oldest) element is evicted.
Stated uniformly as dropping the overflow from the left of `h ++ [v]`. -/
def record (cap : ℕ) (h : List α) (v : α) : List α :=
  (h ++ [v]).drop (h.length + 1 - cap)

/-- Recording a whole sequence of samples into an initially empty deque, oldest first. -/
def recordAll (cap : ℕ) (vs : List α) : List α :=
  vs.foldl (record cap) []

/-- Default `history_size` of `PerformanceMonitor.__init__` (line 36). -/
def defaultHistorySize : ℕ := 100

theorem record_length (cap : ℕ) (h : List α) (v : α) :
    (record cap h v).length = min (h.length + 1) cap := by
  simp [record]
  omega

theorem record_le_cap (cap : ℕ) (h : List α) (v : α) :
    (record cap h v).length ≤ cap := by
  rw [record_length]
  omega

theorem foldl_record (cap : ℕ) (vs : List α) :
    ∀ h : List α, h.length ≤ cap →
      vs.foldl (record cap) h = (h ++ vs).drop (h.length + vs.length - cap) := by
  induction vs with
  | nil =>
    intro h hle
    simp [Nat.sub_eq_zero_of_le hle]
  | cons v rest ih =>
    intro h hle
    have hd1 : h.length + 1 - cap ≤ (h ++ [v]).length := by
      simp only [List.length_append, List.length_singleton]
      omega
    rw [List.foldl_cons, ih _ (record_le_cap cap h v), record_length]
    show (((h ++ [v]).drop (h.length + 1 - cap)) ++ rest).drop _ = _
    rw [← List.drop_append_of_le_length hd1, List.drop_drop, List.append_assoc]
    congr 1
    simp only [List.length_cons, List.length_append, List.length_singleton]
    omega

theorem recordAll_eq_drop (cap : ℕ) (vs : List α) :
    recordAll cap vs = vs.drop (vs.length - cap) := by
  have h := foldl_record cap vs [] (by simp)
  simpa [recordAll] using h

theorem recordAll_length (cap : ℕ) (vs : List α) :
    (recordAll cap vs).length = min vs.length cap := by
  rw [recordAll_eq_drop]
  simp
  omega

/-- Claim C1: after recording a sequence of `N` samples into a fresh metric history of
capacity `cap` (default 100), the history's length is `min N cap` — i.e. `N` while
`N < cap` and exactly `cap` once `N ≥ cap` — its contents are the last `cap` recorded
values in temporal order (`vs.drop (vs.length - cap)`), and the length never exceeds
the capacity. -/
theorem spec_C1_history_bounded (cap : ℕ) (vs : List ℚ) :
    (recordAll cap vs).length = min vs.length cap ∧
    recordAll cap vs = vs.drop (vs.length - cap) ∧
    (recordAll cap vs).length ≤ cap := by
  refine ⟨recordAll_length cap vs, recordAll_eq_drop cap vs, ?_⟩
  rw [recordAll_length]
  omega

/-- The static threshold table of `PerformanceMonitor.__init__` (lines 54-59). -/
structure Thresholds where
  cpu_percent : ℚ
  memory_mb : ℚ
  audio_latency_ms : ℚ
  thread_count : ℕ
deriving DecidableEq

/-- The values assigned in `__init__`: 25.0 % CPU, 500.0 MB, 10.0 ms, 20 threads. -/
def defaultThresholds : Thresholds :=
  { cpu_percent := 25, memory_mb := 500, audio_latency_ms := 10, thread_count := 20 }

/-- One sample: the `metrics` dict built in `collect_metrics` (lines 126-135).
The ISO timestamp is abstracted to a number. -/
structure Metrics where
  timestamp : ℕ
  cpu_percent : ℚ
  memory_mb : ℚ
  memory_percent : ℚ
  thread_count : ℕ
  handle_count : ℕ
  read_bytes : ℕ
  write_bytes : ℕ
deriving DecidableEq

/-- The mutable state of a `PerformanceMonitor`: the five per-metric deques
(lines 42-46) plus the capacity and the threshold table. Process identity and the
audio-latency extras (never written by the script) are omitted. -/
structure MonitorState where
  history_size : ℕ
  cpu_history : List ℚ
  memory_history : List ℚ
  thread_count_history : List ℕ
  handle_count_history : List ℕ
  time_history : List ℚ
  thresholds : Thresholds
deriving DecidableEq

/-- The metrics `_check_thresholds` evaluates, in the order the code checks them. -/
inductive MetricName
  | cpu
  | memory
  | threadCount
deriving DecidableEq

/-- One threshold warning: the compared metric, the observed value and the limit
(a `⚠️ High ...: observed > limit` console line). -/
structure Violation where
  metric : MetricName
  observed : ℚ
  limit : ℚ
deriving DecidableEq

/-- Observed value of a checked metric inside a sample (thread count read as ℚ). -/
def metricObserved (m : Metrics) : MetricName → ℚ
  | .cpu => m.cpu_percent
  | .memory => m.memory_mb
  | .threadCount => (m.thread_count : ℚ)

/-- Configured limit of a checked metric (thread-count limit read as ℚ). -/
def metricLimit (t : Thresholds) : MetricName → ℚ
  | .cpu => t.cpu_percent
  | .memory => t.memory_mb
  | .threadCount => (t.thread_count : ℚ)

/-- The fixed order in which `_check_thresholds` examines the metrics
(lines 158, 161, 164). -/
def checkOrder : List MetricName := [.cpu, .memory, .threadCount]

/-- `PerformanceMonitor._check_thresholds` (lines 154-168): appends one warning per
strictly exceeded threshold, checking cpu, then memory, then thread count. -/
def _check_thresholds (m : Metrics) (t : Thresholds) : List Violation :=
  ((if m.cpu_percent > t.cpu_percent then
      [{ metric := .cpu, observed := m.cpu_percent, limit := t.cpu_percent }]
    else []) ++
   (if m.memory_mb > t.memory_mb then
      [{ metric := .memory, observed := m.memory_mb, limit := t.memory_mb }]
    else [])) ++
  (if m.thread_count > t.thread_count then
    [{ metric := .threadCount, observed := (m.thread_count : ℚ),
       limit := (t.thread_count : ℚ) }]
   else [])

/-- Outcome of the psutil reads inside `collect_metrics`: either a full sample with
the wall-clock time, or `psutil.NoSuchProcess` / `psutil.AccessDenied` raised during
the reads (caught at lines 150-152). -/
inductive SampleOutcome
  | ok (m : Metrics) (now : ℚ)
  | procError
deriving DecidableEq

/-- `PerformanceMonitor.collect_metrics` (lines 96-152): on success it appends one
value to each of the five history deques (lines 139-143), runs `_check_thresholds`
(whose warnings are the third component) and returns the metrics dict; on a
`NoSuchProcess`/`AccessDenied` failure it returns the empty dict (`none`) and leaves
the state untouched. -/
def collect_metrics (st : MonitorState) (out : SampleOutcome) :
    MonitorState × Option Metrics × List Violation :=
  match out with
  | .procError => (st, none, [])
  | .ok m now =>
      ({ st with
          cpu_history := record st.history_size st.cpu_history m.cpu_percent
          memory_history := record st.history_size st.memory_history m.memory_mb
          thread_count_history := record st.history_size st.thread_count_history m.thread_count
          handle_count_history := record st.history_size st.handle_count_history m.handle_count
          time_history := record st.history_size st.time_history now },
        some m, _check_thresholds m st.thresholds)

/-- One element of the console output of `print_metrics`: the timestamp header line,
the current-values line, or the `10s Average` line. -/
inductive OutputItem
  | header (timestamp : ℕ)
  | current (cpu memory memoryPercent : ℚ) (threads handles : ℕ)
  | averages (avgCpu avgMemory : ℚ)
deriving DecidableEq

/-- Python slice `list(xs)[-n:]`: the last `n` elements (all of them when fewer). -/
def lastN (n : ℕ) (l : List α) : List α := l.drop (l.length - n)

/-- Recognizer for the `10s Average` output line. -/
def OutputItem.isAvg : OutputItem → Bool
  | .averages _ _ => true
  | _ => false

/-- `PerformanceMonitor.print_metrics` (lines 170-185): an empty metrics dict prints
nothing; otherwise a header and a current-values line are printed, and the trailing
`10s Average` line is printed only when the cpu history holds at least 10 samples,
averaging the last 10 samples with a fixed divisor of 10. -/
def print_metrics (st : MonitorState) (metrics : Option Metrics) : List OutputItem :=
  match metrics with
  | none => []
  | some m =>
      [.header m.timestamp,
       .current m.cpu_percent m.memory_mb m.memory_percent m.thread_count m.handle_count] ++
      (if 10 ≤ st.cpu_history.length then
        [.averages ((lastN 10 st.cpu_history).sum / 10) ((lastN 10 st.memory_history).sum / 10)]
      else [])

/-- The trailing average shown in the `plot_realtime` summary panel (lines 277-278):
sum of the last 10 samples divided by `min 10 (number of samples)`. -/
def plotTrailingAverage (h : List ℚ) : ℚ :=
  (lastN 10 h).sum / (min 10 h.length : ℚ)

/-- Python `max` over a nonempty list, as `save_metrics` and `main` use it. `max` of
an empty sequence raises in Python; every call site guards emptiness first, so the
`[]` case of this total model is never exercised on a real path. -/
def pyMax : List ℚ → ℚ
  | [] => 0
  | x :: xs => xs.foldl max x

/-- The per-metric stats dict written by `save_metrics` (lines 194-208): the history
snapshot, `sum/len` if nonempty else `0`, and `max` if nonempty else `0`. -/
structure MetricStats where
  history : List ℚ
  average : ℚ
  peak : ℚ
deriving DecidableEq

/-- Builds one `{history, average, peak}` entry exactly as `save_metrics` does. -/
def statsOf (h : List ℚ) : MetricStats :=
  { history := h
    average := if h = [] then 0 else h.sum / h.length
    peak := if h = [] then 0 else pyMax h }

/-- The `violations` dict of `_get_threshold_violations` (lines 218-225). -/
structure Violations where
  cpu_exceeded : ℕ
  memory_exceeded : ℕ
  thread_exceeded : ℕ
deriving DecidableEq

/-- `PerformanceMonitor._get_threshold_violations` (lines 218-225): counts, directly
from the current histories, the entries strictly above the matching threshold. -/
def _get_threshold_violations (st : MonitorState) : Violations :=
  { cpu_exceeded := st.cpu_history.countP (fun cpu => decide (cpu > st.thresholds.cpu_percent))
    memory_exceeded := st.memory_history.countP (fun mem => decide (mem > st.thresholds.memory_mb))
    thread_exceeded := st.thread_count_history.countP (fun tc => decide (tc > st.thresholds.thread_count)) }

/-- The JSON document written by `save_metrics` (lines 187-216). Process id and name
are I/O identity details and are omitted; `monitoring_duration` is `len(time_history)`. -/
structure SavedData where
  monitoring_duration : ℕ
  cpu : MetricStats
  memory : MetricStats
  threads : MetricStats
  thresholds : Thresholds
  violations : Violations
deriving DecidableEq

/-- `PerformanceMonitor.save_metrics` (lines 187-216): assembles the summary document
from the current histories further to the threshold table and recomputed violation
counts, then writes it out. -/
def save_metrics (st : MonitorState) : SavedData :=
  { monitoring_duration := st.time_history.length
    cpu := statsOf st.cpu_history
    memory := statsOf st.memory_history
    threads := statsOf (st.thread_count_history.map (fun n => (n : ℚ)))
    thresholds := st.thresholds
    violations := _get_threshold_violations st }

/-- Specification contract of §4.2 of the design document, stated in the spec's own
words for comparison with `statsOf`: the average over an empty History signals
`EmptyHistory` instead of returning a bare number. -/
def averageSpecContract (h : List ℚ) : Except String ℚ :=
  if h = [] then Except.error "EmptyHistory" else Except.ok (h.sum / h.length)

/-- Specification contract of §4.2 of the design document, stated in the spec's own
words for comparison with `statsOf`: the peak over an empty History signals
`EmptyHistory` instead of returning a bare number. -/
def peakSpecContract (h : List ℚ) : Except String ℚ :=
  if h = [] then Except.error "EmptyHistory" else Except.ok (pyMax h)

/-- The aggregate numbers printed by the `=== Performance Summary ===` block in
`main`'s finally clause (lines 363-371). -/
structure SummaryData where
  cpu_average : ℚ
  cpu_peak : ℚ
  memory_average : ℚ
  memory_peak : ℚ
  violations : Violations
deriving DecidableEq

/-- The summary printing inline in `main`'s finally clause (lines 362-371):
`sum(cpu_history)/len(cpu_history)` is evaluated with no emptiness guard, so an empty
cpu history raises `ZeroDivisionError` (and likewise for memory). -/
def mainSummaryPrint (st : MonitorState) : Except String SummaryData :=
  if st.cpu_history = [] then Except.error "ZeroDivisionError"
  else if st.memory_history = [] then Except.error "ZeroDivisionError"
  else Except.ok
    { cpu_average := st.cpu_history.sum / st.cpu_history.length
      cpu_peak := pyMax st.cpu_history
      memory_average := st.memory_history.sum / st.memory_history.length
      memory_peak := pyMax st.memory_history
      violations := _get_threshold_violations st }

/-- Why the monitoring run stopped (spec §4.4 state machine). -/
inductive StopReason
  | durationElapsed
  | userInterrupt
  | processExited
deriving DecidableEq

/-- One iteration's worth of external input to the console loop of `main`
(lines 345-354): a tick with its psutil outcome and the elapsed time after it, a
`KeyboardInterrupt` delivered during the body, or loss of the target process, in which
case `_find_process` calls `sys.exit(1)` (line 72), raising `SystemExit`. -/
inductive LoopEvent
  | tick (out : SampleOutcome) (elapsedAfter : ℚ)
  | interrupt
  | processLost

/-- How control leaves the `while True` loop of `main`: the duration `break`
(line 352), a `KeyboardInterrupt` or `SystemExit` propagating out, or the supplied
event schedule running out while the loop is still spinning. -/
inductive LoopExit
  | normalBreak
  | raisedKeyboardInterrupt
  | raisedSystemExit
  | outOfSchedule
deriving DecidableEq

/-- The console monitoring loop of `main` (lines 345-354): each tick collects metrics
(mutating the histories) and then breaks once `duration > 0` and the elapsed time has
reached it; an interrupt or process loss aborts the loop exceptionally with the state
as it stands. -/
def loopRun (duration : ℚ) : List LoopEvent → MonitorState → MonitorState × LoopExit
  | [], st => (st, .outOfSchedule)
  | .interrupt :: _, st => (st, .raisedKeyboardInterrupt)
  | .processLost :: _, st => (st, .raisedSystemExit)
  | .tick out elapsedAfter :: rest, st =>
      let st1 := (collect_metrics st out).1
      if 0 < duration ∧ duration ≤ elapsedAfter then (st1, .normalBreak)
      else loopRun duration rest st1

/-- Everything `main` produces on a terminated run: the final monitor state, the stop
reason, the persisted summary document, and the outcome of the summary printing. -/
structure MainResult where
  finalState : MonitorState
  stopReason : StopReason
  saved : SavedData
  summaryPrint : Except String SummaryData

/-- The `try/except KeyboardInterrupt/finally` structure of `main` (lines 345-371):
however the loop ends — duration `break`, caught `KeyboardInterrupt`, or `SystemExit`
from process loss — the `finally` clause runs `save_metrics` and then prints the
summary before the process exits. `none` means the schedule ended with the loop still
running. -/
def mainConsole (duration : ℚ) (evs : List LoopEvent) (st0 : MonitorState) :
    Option MainResult :=
  match loopRun duration evs st0 with
  | (_, .outOfSchedule) => none
  | (st, .normalBreak) =>
      some { finalState := st, stopReason := .durationElapsed
             saved := save_metrics st, summaryPrint := mainSummaryPrint st }
  | (st, .raisedKeyboardInterrupt) =>
      some { finalState := st, stopReason := .userInterrupt
             saved := save_metrics st, summaryPrint := mainSummaryPrint st }
  | (st, .raisedSystemExit) =>
      some { finalState := st, stopReason := .processExited
             saved := save_metrics st, summaryPrint := mainSummaryPrint st }

theorem init_le_foldl_max (xs : List ℚ) : ∀ x : ℚ, x ≤ xs.foldl max x := by
  induction xs with
  | nil => intro x; simp
  | cons a as ih =>
    intro x
    exact le_trans (le_max_left x a) (ih (max x a))

theorem mem_le_foldl_max (xs : List ℚ) : ∀ x y : ℚ, y ∈ xs → y ≤ xs.foldl max x := by
  induction xs with
  | nil =>
    intro x y hy
    simp at hy
  | cons a as ih =>
    intro x y hy
    rw [List.foldl_cons]
    rcases List.mem_cons.mp hy with h | h
    · subst h
      exact le_trans (le_max_right x y) (init_le_foldl_max as (max x y))
    · exact ih (max x a) y h

theorem foldl_max_mem (xs : List ℚ) : ∀ x : ℚ, xs.foldl max x ∈ x :: xs := by
  induction xs with
  | nil => intro x; simp
  | cons a as ih =>
    intro x
    rw [List.foldl_cons]
    rcases List.mem_cons.mp (ih (max x a)) with h | h
    · rcases max_choice x a with h1 | h1 <;> rw [h1] at h ⊢ <;> simp [h]
    · simp [h]

theorem pyMax_mem (h : List ℚ) (hne : h ≠ []) : pyMax h ∈ h := by
  cases h with
  | nil => exact absurd rfl hne
  | cons x xs => simpa [pyMax] using foldl_max_mem xs x

theorem le_pyMax (h : List ℚ) (y : ℚ) (hy : y ∈ h) : y ≤ pyMax h := by
  cases h with
  | nil => simp at hy
  | cons x xs =>
    rcases List.mem_cons.mp hy with h1 | h1
    · exact h1 ▸ init_le_foldl_max xs x
    · exact mem_le_foldl_max xs x y h1

/-- A monitor state with every history empty: the state of a run interrupted before
its first tick (the `--duration 0` plus immediate `KeyboardInterrupt` scenario). -/
def emptyState : MonitorState :=
  { history_size := defaultHistorySize
    cpu_history := []
    memory_history := []
    thread_count_history := []
    handle_count_history := []
    time_history := []
    thresholds := defaultThresholds }

/-- The spec's threshold scenario state: cpu samples `[10, 30, 5, 40]` against the
default 25.0 cpu threshold. -/
def scenarioState : MonitorState :=
  { history_size := defaultHistorySize
    cpu_history := [10, 30, 5, 40]
    memory_history := [100, 100, 100, 100]
    thread_count_history := [5, 5, 5, 5]
    handle_count_history := [0, 0, 0, 0]
    time_history := [0, 1, 2, 3]
    thresholds := defaultThresholds }

/-- A concrete sample used to exercise `print_metrics` and `collect_metrics`. -/
def exampleMetrics : Metrics :=
  { timestamp := 4
    cpu_percent := 12
    memory_mb := 100
    memory_percent := 1
    thread_count := 5
    handle_count := 0
    read_bytes := 0
    write_bytes := 0 }

/-- A state whose histories hold three samples — fewer than the ten `print_metrics`
needs before it prints the trailing averages. -/
def exampleState3 : MonitorState :=
  { history_size := defaultHistorySize
    cpu_history := [11, 12, 13]
    memory_history := [100, 101, 102]
    thread_count_history := [5, 5, 5]
    handle_count_history := [0, 0, 0]
    time_history := [0, 1, 2]
    thresholds := defaultThresholds }

/-- A state whose cpu and memory histories hold exactly ten samples. -/
def exampleState10 : MonitorState :=
  { history_size := defaultHistorySize
    cpu_history := [1, 1, 1, 1, 1, 1, 1, 1, 1, 1]
    memory_history := [2, 2, 2, 2, 2, 2, 2, 2, 2, 2]
    thread_count_history := [5, 5, 5, 5, 5, 5, 5, 5, 5, 5]
    handle_count_history := [0, 0, 0, 0, 0, 0, 0, 0, 0, 0]
    time_history := [0, 1, 2, 3, 4, 5, 6, 7, 8, 9]
    thresholds := defaultThresholds }

/-- Claim C2 counterexample: on the empty History the code's average and peak fields
(`statsOf`, built exactly as in `save_metrics` lines 196-197) silently evaluate to the
bare number 0 with no error flag, whereas the claimed contract
(`averageSpecContract` / `peakSpecContract`, the spec's words) requires the
`EmptyHistory` signal — so the claim is false of the code. -/
theorem spec_C2_counterexample :
    (statsOf []).average = 0 ∧ (statsOf []).peak = 0 ∧
    averageSpecContract [] = Except.error "EmptyHistory" ∧
    peakSpecContract [] = Except.error "EmptyHistory" :=
  ⟨rfl, rfl, rfl, rfl⟩

/-- Claim C2 as amended: the code never signals `EmptyHistory`. In `save_metrics`,
average and peak over an empty History silently return 0 with no flag; in `main`'s
summary printing, the unguarded `sum/len` over an empty History raises a numeric
`ZeroDivisionError`. -/
theorem spec_C2_empty_history_silent_zero (st : MonitorState)
    (hc : st.cpu_history = []) :
    (save_metrics st).cpu.average = 0 ∧
    (save_metrics st).cpu.peak = 0 ∧
    mainSummaryPrint st = Except.error "ZeroDivisionError" := by
  simp [save_metrics, statsOf, mainSummaryPrint, hc]

/-- Claim C2 amended-theorem witness: the empty monitor state satisfies the
hypothesis, and the conclusions hold there. -/
theorem spec_C2_witness :
    emptyState.cpu_history = ([] : List ℚ) ∧
    ((save_metrics emptyState).cpu.average = 0 ∧
     (save_metrics emptyState).cpu.peak = 0 ∧
     mainSummaryPrint emptyState = Except.error "ZeroDivisionError") :=
  ⟨rfl, spec_C2_empty_history_silent_zero emptyState rfl⟩

/-- Claim C3, evaluated at the failing input (duration 0, `KeyboardInterrupt` before
any tick, all histories empty): the `finally` clause does persist a summary whose
sample count (`monitoring_duration`) is 0, but the subsequent summary printing raises
`ZeroDivisionError`, so the program does crash on this path, contradicting the
claim's "no crash". -/
theorem spec_C3_zero_sample_run :
    mainConsole 0 [LoopEvent.interrupt] emptyState =
      some { finalState := emptyState
             stopReason := .userInterrupt
             saved := save_metrics emptyState
             summaryPrint := Except.error "ZeroDivisionError" } ∧
    (save_metrics emptyState).monitoring_duration = 0 :=
  ⟨rfl, rfl⟩

/-- Claim C4: `_check_thresholds` is a pure function of the sample and the thresholds
that emits one Violation `{metric, observed, limit}` for exactly the metrics whose
observed value strictly exceeds the configured limit, in the fixed deterministic
order cpu, memory, thread count (`checkOrder`); determinism and order-stability
follow because the result is this unique filter of `checkOrder`. -/
theorem spec_C4_threshold_eval (m : Metrics) (t : Thresholds) :
    _check_thresholds m t =
      (checkOrder.filter (fun k => decide (metricObserved m k > metricLimit t k))).map
        (fun k => { metric := k, observed := metricObserved m k,
                    limit := metricLimit t k }) := by
  simp only [_check_thresholds, checkOrder, metricObserved, metricLimit]
  by_cases h1 : m.cpu_percent > t.cpu_percent <;>
    by_cases h2 : m.memory_mb > t.memory_mb <;>
      by_cases h3 : m.thread_count > t.thread_count <;>
        simp [h1, h2, h3, List.filter, Nat.cast_lt]

/-- Claim C5: the violation counters are recomputed on demand from the histories as
the number of entries strictly above the matching threshold, and on the spec scenario
(cpu threshold 25, samples `[10, 30, 5, 40]`) the cpu counter is 2 with the
violations exactly at indices 1 and 3. -/
theorem spec_C5_violation_counts :
    (∀ st : MonitorState,
        (_get_threshold_violations st).cpu_exceeded =
          (st.cpu_history.filter (fun cpu => decide (cpu > st.thresholds.cpu_percent))).length ∧
        (_get_threshold_violations st).memory_exceeded =
          (st.memory_history.filter (fun mem => decide (mem > st.thresholds.memory_mb))).length ∧
        (_get_threshold_violations st).thread_exceeded =
          (st.thread_count_history.filter (fun tc => decide (tc > st.thresholds.thread_count))).length) ∧
    (_get_threshold_violations scenarioState).cpu_exceeded = 2 ∧
    (scenarioState.cpu_history.enum.filter
        (fun p => decide (p.2 > scenarioState.thresholds.cpu_percent))).map Prod.fst = [1, 3] := by
  refine ⟨fun st => ⟨?_, ?_, ?_⟩, ?_, ?_⟩
  · exact List.countP_eq_length_filter _ _
  · exact List.countP_eq_length_filter _ _
  · exact List.countP_eq_length_filter _ _
  · decide
  · decide

/-- Claim C6 counterexample: with three samples in History (fewer than ten),
`print_metrics` still renders the header and current-values lines but omits the
trailing-average line entirely — it is not computed over the available samples as the
claim states. -/
theorem spec_C6_counterexample :
    exampleState3.cpu_history.length = 3 ∧
    (print_metrics exampleState3 (some exampleMetrics)).filter OutputItem.isAvg = [] ∧
    print_metrics exampleState3 (some exampleMetrics) ≠ [] := by
  refine ⟨rfl, ?_, ?_⟩ <;> decide

/-- Claim C6 as amended: `print_metrics` includes the trailing-10-sample averages
exactly when the History holds at least 10 samples, in which case each average is the
sum of the last 10 samples divided by 10; with fewer samples the averages line is
omitted (the render itself does not fail — header and current lines still print). -/
theorem spec_C6_trailing_average (st : MonitorState) (m : Metrics) :
    ((print_metrics st (some m)).filter OutputItem.isAvg ≠ [] ↔
       10 ≤ st.cpu_history.length) ∧
    (10 ≤ st.cpu_history.length →
      (print_metrics st (some m)).filter OutputItem.isAvg =
        [OutputItem.averages ((lastN 10 st.cpu_history).sum / 10)
          ((lastN 10 st.memory_history).sum / 10)]) := by
  by_cases hlen : 10 ≤ st.cpu_history.length <;>
    simp [print_metrics, OutputItem.isAvg, hlen]

/-- Claim C6 amended-theorem witness: a ten-sample history satisfies the hypothesis
and the averages line is rendered. -/
theorem spec_C6_witness :
    10 ≤ exampleState10.cpu_history.length ∧
    (print_metrics exampleState10 (some exampleMetrics)).filter OutputItem.isAvg =
      [OutputItem.averages ((lastN 10 exampleState10.cpu_history).sum / 10)
        ((lastN 10 exampleState10.memory_history).sum / 10)] :=
  ⟨by decide, (spec_C6_trailing_average exampleState10 exampleMetrics).2 (by decide)⟩

/-- Claim C7: in every persisted snapshot with a nonempty cpu History, the stored
`metrics.cpu.average` equals the arithmetic mean of the stored `metrics.cpu.history`,
and the stored peak is the maximum of the stored history (it belongs to it and bounds
every element) — both are computed from the same history snapshot. -/
theorem spec_C7_saved_stats (st : MonitorState) (hne : st.cpu_history ≠ []) :
    (save_metrics st).cpu.average =
      (save_metrics st).cpu.history.sum / (save_metrics st).cpu.history.length ∧
    (save_metrics st).cpu.peak ∈ (save_metrics st).cpu.history ∧
    ∀ x ∈ (save_metrics st).cpu.history, x ≤ (save_metrics st).cpu.peak := by
  refine ⟨by simp [save_metrics, statsOf, hne], ?_, ?_⟩
  · simpa [save_metrics, statsOf, hne] using pyMax_mem st.cpu_history hne
  · intro x hx
    simp only [save_metrics, statsOf] at hx ⊢
    simp only [hne, if_neg, ite_false]
    exact le_pyMax st.cpu_history x (by simpa using hx)

/-- Claim C7 witness: the scenario state has a nonempty cpu History and the stored
average and peak relate to the stored history as proved. -/
theorem spec_C7_witness :
    scenarioState.cpu_history ≠ [] ∧
    ((save_metrics scenarioState).cpu.average =
      (save_metrics scenarioState).cpu.history.sum /
        (save_metrics scenarioState).cpu.history.length ∧
     (save_metrics scenarioState).cpu.peak ∈ (save_metrics scenarioState).cpu.history ∧
     ∀ x ∈ (save_metrics scenarioState).cpu.history,
        x ≤ (save_metrics scenarioState).cpu.peak) :=
  ⟨by decide, spec_C7_saved_stats scenarioState (by decide)⟩

/-- Claim C8: on every terminated run of the console loop — duration elapsed, user
interrupt, or loss of the monitored process — the `finally` clause is reached: the
persisted document is `save_metrics` of the final state and the summary printing is
attempted, and the stop reason is one of the three terminal reasons. -/
theorem spec_C8_finalization (duration : ℚ) (evs : List LoopEvent) (st0 : MonitorState)
    (res : MainResult) (hres : mainConsole duration evs st0 = some res) :
    res.saved = save_metrics res.finalState ∧
    res.summaryPrint = mainSummaryPrint res.finalState ∧
    (res.stopReason = StopReason.durationElapsed ∨
     res.stopReason = StopReason.userInterrupt ∨
     res.stopReason = StopReason.processExited) := by
  unfold mainConsole at hres
  rcases hq : loopRun duration evs st0 with ⟨st, ex⟩
  rw [hq] at hres
  cases ex with
  | normalBreak =>
    injection hres with h
    subst h
    exact ⟨rfl, rfl, Or.inl rfl⟩
  | raisedKeyboardInterrupt =>
    injection hres with h
    subst h
    exact ⟨rfl, rfl, Or.inr (Or.inl rfl)⟩
  | raisedSystemExit =>
    injection hres with h
    subst h
    exact ⟨rfl, rfl, Or.inr (Or.inr rfl)⟩
  | outOfSchedule =>
    exact Option.noConfusion hres

/-- The run of claim C8's witness: a process loss on the first scheduled event. -/
def c8res : MainResult :=
  { finalState := exampleState3
    stopReason := .processExited
    saved := save_metrics exampleState3
    summaryPrint := mainSummaryPrint exampleState3 }

/-- Claim C8 witness: a concrete run stopped by process loss reaches finalization. -/
theorem spec_C8_witness :
    mainConsole 0 [LoopEvent.processLost] exampleState3 = some c8res ∧
    (c8res.saved = save_metrics c8res.finalState ∧
     c8res.summaryPrint = mainSummaryPrint c8res.finalState ∧
     (c8res.stopReason = StopReason.durationElapsed ∨
      c8res.stopReason = StopReason.userInterrupt ∨
      c8res.stopReason = StopReason.processExited)) :=
  ⟨rfl, spec_C8_finalization 0 [LoopEvent.processLost] exampleState3 c8res rfl⟩

/-- Claim C9: starting from equal-length histories, a successful `collect_metrics`
appends exactly one value to each of the five buffers and a failed one appends to
none, so the five lengths stay equal after every call; on success each new length is
`min (old + 1) history_size`. -/
theorem spec_C9_parallel_histories (st : MonitorState) (out : SampleOutcome)
    (h1 : st.cpu_history.length = st.memory_history.length)
    (h2 : st.cpu_history.length = st.thread_count_history.length)
    (h3 : st.cpu_history.length = st.handle_count_history.length)
    (h4 : st.cpu_history.length = st.time_history.length) :
    ((collect_metrics st out).1.cpu_history.length =
        (collect_metrics st out).1.memory_history.length ∧
     (collect_metrics st out).1.cpu_history.length =
        (collect_metrics st out).1.thread_count_history.length ∧
     (collect_metrics st out).1.cpu_history.length =
        (collect_metrics st out).1.handle_count_history.length ∧
     (collect_metrics st out).1.cpu_history.length =
        (collect_metrics st out).1.time_history.length) ∧
    (∀ m now, out = SampleOutcome.ok m now →
      (collect_metrics st out).1.cpu_history.length =
        min (st.cpu_history.length + 1) st.history_size) ∧
    (out = SampleOutcome.procError → (collect_metrics st out).1 = st) := by
  cases out with
  | ok m now =>
    refine ⟨?_, ?_, ?_⟩
    · simp [collect_metrics, record_length, h1, h2, h3, h4]
      omega
    · intro m2 now2 hok
      simp [collect_metrics, record_length]
    · intro hcontra
      exact absurd hcontra (by simp)
  | procError =>
    refine ⟨?_, ?_, ?_⟩
    · simp [collect_metrics, h1, h2, h3, h4]
      omega
    · intro m now hok
      exact absurd hok (by simp)
    · intro _
      rfl

/-- Claim C9 witness: a successful tick on the three-sample state keeps the five
buffer lengths equal. -/
theorem spec_C9_witness :
    ((collect_metrics exampleState3 (SampleOutcome.ok exampleMetrics 3)).1.cpu_history.length =
        (collect_metrics exampleState3 (SampleOutcome.ok exampleMetrics 3)).1.memory_history.length ∧
     (collect_metrics exampleState3 (SampleOutcome.ok exampleMetrics 3)).1.cpu_history.length =
        (collect_metrics exampleState3 (SampleOutcome.ok exampleMetrics 3)).1.thread_count_history.length ∧
     (collect_metrics exampleState3 (SampleOutcome.ok exampleMetrics 3)).1.cpu_history.length =
        (collect_metrics exampleState3 (SampleOutcome.ok exampleMetrics 3)).1.handle_count_history.length ∧
     (collect_metrics exampleState3 (SampleOutcome.ok exampleMetrics 3)).1.cpu_history.length =
        (collect_metrics exampleState3 (SampleOutcome.ok exampleMetrics 3)).1.time_history.length) ∧
    (∀ m now, SampleOutcome.ok exampleMetrics 3 = SampleOutcome.ok m now →
      (collect_metrics exampleState3 (SampleOutcome.ok exampleMetrics 3)).1.cpu_history.length =
        min (exampleState3.cpu_history.length + 1) exampleState3.history_size) ∧
    (SampleOutcome.ok exampleMetrics 3 = SampleOutcome.procError →
      (collect_metrics exampleState3 (SampleOutcome.ok exampleMetrics 3)).1 = exampleState3) :=
  spec_C9_parallel_histories exampleState3 (SampleOutcome.ok exampleMetrics 3) rfl rfl rfl rfl

/-- Claim C10: a failed sampling tick is atomic and benign: `collect_metrics` on a
`NoSuchProcess`/`AccessDenied` outcome returns the empty record, leaves the whole
monitor state (hence every history) unchanged, and prints no warnings, and
`print_metrics` of the empty record produces no output. -/
theorem spec_C10_failed_tick_benign (st : MonitorState) :
    collect_metrics st SampleOutcome.procError = (st, none, []) ∧
    print_metrics st none = [] :=
  ⟨rfl, rfl⟩
